import Mathlib

/-!
Verification development for the kochi-fleet-wise repository
(src/src/components/MetroDashboard.tsx and src/src/components/OptimizationPanel.tsx).

The TypeScript code generates all fleet data and all optimization output with
`Math.random()`.  We embed it shallowly: every call to `Math.random()` reads the
next value of an explicit stream `rng : Nat -> Rat`; a stream is valid when all
its values lie in `[0, 1)`, exactly the contract of `Math.random()`.  Call sites
are numbered in JavaScript evaluation order, so the k-th `Math.random()` of a
run reads `rng k`.  `Date` values are modelled by a `now : Nat` parameter.
-/

namespace Fleet

/-- A stream of `Math.random()` outputs: every value lies in `[0, 1)`. -/
def ValidStream (rng : Nat → ℚ) : Prop :=
  ∀ k, 0 ≤ rng k ∧ rng k < 1

/-- `Math.floor(q * n)` for `q` a `Math.random()` output, as a natural number. -/
def randFloor (q : ℚ) (n : Nat) : Nat :=
  (Int.floor (q * n)).toNat

/-- `TrainsetStatus.status` (MetroDashboard.tsx line 28). -/
inductive Status where
  | operational
  | standby
  | maintenance
  | critical
deriving DecidableEq, Repr

/-- The recommended / assigned action (`'induct' | 'standby' | 'maintenance'`). -/
inductive Action where
  | induct
  | standby
  | maintenance
deriving DecidableEq, Repr

/-- Branding priority (`'high' | 'medium' | 'low'`). -/
inductive Priority where
  | high
  | medium
  | low
deriving DecidableEq, Repr

/-- `TrainsetStatus.fitness` (MetroDashboard.tsx lines 29-33). -/
structure Fitness where
  rollingStock : Bool
  signalling : Bool
  telecom : Bool
deriving DecidableEq, Repr

/-- `TrainsetStatus.jobCards` (MetroDashboard.tsx lines 34-37).
`open` is a Lean keyword, so the source field `open` is named `openCount`. -/
structure JobCards where
  openCount : Nat
  total : Nat
deriving DecidableEq, Repr

/-- `TrainsetStatus.branding` (MetroDashboard.tsx lines 38-42). -/
structure Branding where
  priority : Priority
  exposure : Nat
  target : Nat
deriving DecidableEq, Repr

/-- `TrainsetStatus.mileage` (MetroDashboard.tsx lines 43-47).
`variance` is generated as `Math.floor(Math.random() * 10000) - 5000`, an
integer that may be negative. -/
structure Mileage where
  current : Nat
  target : Nat
  variance : Int
deriving DecidableEq, Repr

/-- `TrainsetStatus.cleaning` (MetroDashboard.tsx lines 48-51). -/
structure Cleaning where
  scheduled : Bool
  priority : Nat
deriving DecidableEq, Repr

/-- `TrainsetStatus.stablingBay` (MetroDashboard.tsx lines 52-56). -/
structure StablingBay where
  current : String
  optimal : String
  shuntingTime : Nat
deriving DecidableEq, Repr

/-- `TrainsetStatus` (MetroDashboard.tsx lines 25-60). -/
structure TrainsetStatus where
  id : String
  number : String
  status : Status
  fitness : Fitness
  jobCards : JobCards
  branding : Branding
  mileage : Mileage
  cleaning : Cleaning
  stablingBay : StablingBay
  lastUpdated : Nat
  recommendedAction : Action
  confidenceScore : Nat
deriving DecidableEq, Repr

/-- `['operational', 'standby', 'maintenance', 'critical'][k]`. -/
def statusOfIndex (k : Nat) : Status :=
  if k = 0 then Status.operational
  else if k = 1 then Status.standby
  else if k = 2 then Status.maintenance
  else Status.critical

/-- `['induct', 'standby', 'maintenance'][k]`. -/
def actionOfIndex (k : Nat) : Action :=
  if k = 0 then Action.induct
  else if k = 1 then Action.standby
  else Action.maintenance

/-- `['high', 'medium', 'low'][k]`. -/
def priorityOfIndex (k : Nat) : Priority :=
  if k = 0 then Priority.high
  else if k = 1 then Priority.medium
  else Priority.low

/-- `String(n).padStart(3, '0')`. -/
def pad3 (n : Nat) : String :=
  if n < 10 then "00" ++ toString n
  else if n < 100 then "0" ++ toString n
  else toString n

/-- One trainset of `generateTrainsetData` (MetroDashboard.tsx lines 70-110).
Trainset `i` consumes the 17 `Math.random()` calls `rng (17*i) .. rng (17*i+16)`,
numbered in JavaScript evaluation order:
status, rollingStock, signalling, telecom, jobCards.open, jobCards.total,
branding.priority, branding.exposure, mileage.current, mileage.variance,
cleaning.scheduled, cleaning.priority, stablingBay.current, stablingBay.optimal,
stablingBay.shuntingTime, recommendedAction, confidenceScore. -/
def generateTrainset (now : Nat) (rng : Nat → ℚ) (i : Nat) : TrainsetStatus :=
  let base := 17 * i
  { id := "train-" ++ toString (i + 1)
    number := "KMRL-" ++ pad3 (i + 1)
    status := statusOfIndex (randFloor (rng base) 4)
    fitness :=
      { rollingStock := decide ((0.1 : ℚ) < rng (base + 1))
        signalling := decide ((0.05 : ℚ) < rng (base + 2))
        telecom := decide ((0.08 : ℚ) < rng (base + 3)) }
    jobCards :=
      { openCount := randFloor (rng (base + 4)) 5
        total := randFloor (rng (base + 5)) 10 + 5 }
    branding :=
      { priority := priorityOfIndex (randFloor (rng (base + 6)) 3)
        exposure := randFloor (rng (base + 7)) 100
        target := 85 }
    mileage :=
      { current := randFloor (rng (base + 8)) 50000 + 10000
        target := 45000
        variance := Int.floor (rng (base + 9) * 10000) - 5000 }
    cleaning :=
      { scheduled := decide ((0.3 : ℚ) < rng (base + 10))
        priority := randFloor (rng (base + 11)) 5 + 1 }
    stablingBay :=
      { current := "Bay-" ++ toString (randFloor (rng (base + 12)) 8 + 1)
        optimal := "Bay-" ++ toString (randFloor (rng (base + 13)) 8 + 1)
        shuntingTime := randFloor (rng (base + 14)) 30 + 5 }
    lastUpdated := now
    recommendedAction := actionOfIndex (randFloor (rng (base + 15)) 3)
    confidenceScore := randFloor (rng (base + 16)) 30 + 70 }

/-- `generateTrainsetData` (MetroDashboard.tsx lines 69-112):
`Array.from({ length: 25 }, (_, i) => ...)`. -/
def generateTrainsetData (now : Nat) (rng : Nat → ℚ) : List TrainsetStatus :=
  (List.range 25).map (generateTrainset now rng)

/-- The all-zero stream: `Math.random()` returning `0` at every call.
`0 ∈ [0, 1)`, so this is a possible behaviour of `Math.random()`. -/
def zeroStream : Nat → ℚ := fun _ => 0

theorem zeroStream_valid : ValidStream zeroStream := by
  intro k
  constructor <;> norm_num [zeroStream]

/-- `OptimizationResult` (OptimizationPanel.tsx lines 21-28). -/
structure OptimizationResult where
  trainsetId : String
  action : Action
  score : Nat
  reasoning : List String
  constraints : List String
  timestamp : Nat
deriving DecidableEq, Repr

/-- `OptimizationMetrics` (OptimizationPanel.tsx lines 30-37). -/
structure OptimizationMetrics where
  serviceReadiness : Nat
  costEfficiency : Nat
  brandingCompliance : Nat
  maintenanceOptimization : Nat
  stablingEfficiency : Nat
  overallScore : Nat
deriving DecidableEq, Repr

/-- The `logs` array of `runOptimization` (OptimizationPanel.tsx lines 51-63). -/
def optimizationLogs : List String :=
  [ "Initializing multi-objective optimization engine...",
    "Loading trainset fitness certificates...",
    "Parsing Maximo job card exports...",
    "Calculating branding exposure requirements...",
    "Analyzing mileage balancing constraints...",
    "Evaluating cleaning schedule availability...",
    "Optimizing stabling bay geometry...",
    "Running constraint satisfaction algorithms...",
    "Applying machine learning predictive models...",
    "Generating ranked induction recommendations...",
    "Validation complete - Solution ready" ]

/-- The sequence of values passed to `setProgress` during a run
(OptimizationPanel.tsx lines 48 and 66-70): `0` at start, then
`((i + 1) / logs.length) * 100` for each completed stage `i`. -/
def progressSignal : List ℚ :=
  0 :: (List.range optimizationLogs.length).map
    (fun i : Nat => (((i : ℚ) + 1) / optimizationLogs.length) * 100)

/-- The `reasoning` pool of `runOptimization` (OptimizationPanel.tsx lines 77-82). -/
def reasoningPool : List String :=
  [ "All fitness certificates valid",
    "Zero open job cards",
    "High branding priority met",
    "Optimal mileage balance" ]

/-- The `constraints` pool of `runOptimization` (OptimizationPanel.tsx lines 83-87). -/
def constraintsPool : List String :=
  [ "Telecom clearance expires in 6 hours",
    "Scheduled cleaning required",
    "Bay repositioning needed" ]

/-- One element of `mockResults` (OptimizationPanel.tsx lines 73-89).
Result `i` consumes the 4 `Math.random()` calls `rng (4*i) .. rng (4*i+3)`,
in JavaScript evaluation order: action, score, reasoning slice length minus
one, constraints slice length. -/
def mkResult (now : Nat) (rng : Nat → ℚ) (i : Nat) : OptimizationResult :=
  let base := 4 * i
  { trainsetId := "KMRL-" ++ pad3 (i + 1)
    action := actionOfIndex (randFloor (rng base) 3)
    score := randFloor (rng (base + 1)) 30 + 70
    reasoning := reasoningPool.take (randFloor (rng (base + 2)) 4 + 1)
    constraints := constraintsPool.take (randFloor (rng (base + 3)) 3)
    timestamp := now }

/-- `mockResults` (OptimizationPanel.tsx lines 73-89):
`Array.from({ length: 25 }, (_, i) => ...)`, consuming `rng 0 .. rng 99`. -/
def mockResults (now : Nat) (rng : Nat → ℚ) : List OptimizationResult :=
  (List.range 25).map (mkResult now rng)

/-- `mockMetrics` (OptimizationPanel.tsx lines 91-98), consuming the 6
`Math.random()` calls after the 100 calls of `mockResults`. -/
def mockMetrics (rng : Nat → ℚ) : OptimizationMetrics :=
  { serviceReadiness := randFloor (rng 100) 20 + 80
    costEfficiency := randFloor (rng 101) 15 + 85
    brandingCompliance := randFloor (rng 102) 10 + 90
    maintenanceOptimization := randFloor (rng 103) 25 + 75
    stablingEfficiency := randFloor (rng 104) 20 + 80
    overallScore := randFloor (rng 105) 15 + 85 }

/-- The computational content of `runOptimization` (OptimizationPanel.tsx lines
46-103): the results and metrics published by `setResults` / `setMetrics`.
The function never reads the fleet snapshot; its only inputs are the clock and
the hidden `Math.random()` stream. -/
def runOptimization (now : Nat) (rng : Nat → ℚ) :
    List OptimizationResult × OptimizationMetrics :=
  (mockResults now rng, mockMetrics rng)

/-- The display sort `results.sort((a, b) => b.score - a.score)`
(OptimizationPanel.tsx line 265): sorts so that higher scores come first. -/
def sortResults (rs : List OptimizationResult) : List OptimizationResult :=
  rs.insertionSort (fun a b => b.score ≤ a.score)

/-- Modelled from the spec: the Feasibility Filter `feasible_actions` has no
implementation in src/ (the repository only fabricates random actions), so it
is taken from the specification.  Induct requires all three fitness
certificates valid and no open job cards above the default blocking threshold
of zero; a trainset with an expired certificate is feasible only for
Maintenance; open job cards above threshold leave Standby and Maintenance;
Maintenance is always feasible. -/
def feasible_actions (t : TrainsetStatus) : List Action :=
  if t.fitness.rollingStock && t.fitness.signalling && t.fitness.telecom then
    if t.jobCards.openCount = 0 then
      [Action.induct, Action.standby, Action.maintenance]
    else
      [Action.standby, Action.maintenance]
  else
    [Action.maintenance]

/-- The constant `2/3` stream, another possible `Math.random()` behaviour. -/
def twoThirdsStream : Nat → ℚ := fun _ => 2 / 3

theorem twoThirdsStream_valid : ValidStream twoThirdsStream := by
  intro k
  constructor <;> norm_num [twoThirdsStream]

theorem randFloor_lt (q : ℚ) (n : Nat) (hn : 0 < n) (h1 : q < 1) :
    randFloor q n < n := by
  have hn0 : (0 : ℚ) < n := by exact_mod_cast hn
  have hqn : q * (n : ℚ) < (n : ℚ) := by
    calc q * (n : ℚ) < 1 * (n : ℚ) := mul_lt_mul_of_pos_right h1 hn0
    _ = (n : ℚ) := one_mul _
  have hf : Int.floor (q * (n : ℚ)) < (n : ℤ) := by
    rw [Int.floor_lt]
    push_cast
    exact hqn
  unfold randFloor
  omega

theorem generateTrainsetData_head (now : Nat) (rng : Nat → ℚ) :
    (generateTrainsetData now rng).head? = some (generateTrainset now rng 0) := rfl

theorem runOptimization_results_head (now : Nat) (rng : Nat → ℚ) :
    (runOptimization now rng).1.head? = some (mkResult now rng 0) := rfl

/-- On the all-zero stream every trainset of `generateTrainsetData` evaluates
to the same record (apart from its identifiers). -/
theorem generateTrainset_zeroStream (now i : Nat) :
    generateTrainset now zeroStream i =
      { id := "train-" ++ toString (i + 1)
        number := "KMRL-" ++ pad3 (i + 1)
        status := Status.operational
        fitness := ⟨false, false, false⟩
        jobCards := ⟨0, 5⟩
        branding := ⟨Priority.high, 0, 85⟩
        mileage := ⟨10000, 45000, -5000⟩
        cleaning := ⟨false, 1⟩
        stablingBay := ⟨"Bay-1", "Bay-1", 5⟩
        lastUpdated := now
        recommendedAction := Action.induct
        confidenceScore := 70 } := by
  norm_num [generateTrainset, zeroStream, randFloor, statusOfIndex,
    actionOfIndex, priorityOfIndex]
  rfl

/-- On the all-zero stream every result of `runOptimization` evaluates to the
same record (apart from its identifier). -/
theorem mkResult_zeroStream (now i : Nat) :
    mkResult now zeroStream i =
      { trainsetId := "KMRL-" ++ pad3 (i + 1)
        action := Action.induct
        score := 70
        reasoning := ["All fitness certificates valid"]
        constraints := []
        timestamp := now } := by
  norm_num [mkResult, zeroStream, randFloor, actionOfIndex,
    reasoningPool, constraintsPool]

theorem mockMetrics_zeroStream :
    mockMetrics zeroStream = ⟨80, 85, 90, 75, 80, 85⟩ := by
  norm_num [mockMetrics, zeroStream, randFloor]

/-- C1: the claim fails on the code.  On the all-zero `Math.random()` stream
(a possible behaviour), the first trainset of `generateTrainsetData` has all
three fitness certificates expired, yet its assigned action is `induct`, not
`maintenance`: the action is drawn at random, independent of the
certificates. -/
theorem expired_certificate_assigned_induct :
    ValidStream zeroStream ∧
    ((generateTrainsetData 0 zeroStream).head?.map
      (fun t => (t.fitness.rollingStock, t.fitness.signalling, t.fitness.telecom,
        t.recommendedAction))) = some (false, false, false, Action.induct) := by
  refine ⟨zeroStream_valid, ?_⟩
  rw [generateTrainsetData_head, generateTrainset_zeroStream]
  rfl

/-- C2: the claim fails on the code.  `runOptimization` reads the hidden
`Math.random()` stream; two runs on the identical (ignored) fleet snapshot
with the stream in different states assign `KMRL-001` the actions `induct`
and `maintenance` respectively, so the two result sets differ. -/
theorem runOptimization_hidden_randomness :
    ValidStream zeroStream ∧ ValidStream twoThirdsStream ∧
    ((runOptimization 0 zeroStream).1.head?.map (fun r => r.action)
      = some Action.induct) ∧
    ((runOptimization 0 twoThirdsStream).1.head?.map (fun r => r.action)
      = some Action.maintenance) ∧
    (runOptimization 0 zeroStream).1 ≠ (runOptimization 0 twoThirdsStream).1 := by
  have h1 : ((runOptimization 0 zeroStream).1.head?.map (fun r => r.action)
      = some Action.induct) := by
    rw [runOptimization_results_head, mkResult_zeroStream]
    rfl
  have h2 : ((runOptimization 0 twoThirdsStream).1.head?.map (fun r => r.action)
      = some Action.maintenance) := by
    rw [runOptimization_results_head]
    norm_num [mkResult, twoThirdsStream, randFloor, actionOfIndex]
    decide
  refine ⟨zeroStream_valid, twoThirdsStream_valid, h1, h2, ?_⟩
  intro heq
  rw [heq] at h1
  rw [h1] at h2
  exact Action.noConfusion (Option.some.inj h2)

/-- C3: the claim fails on the code.  On the all-zero stream every one of the
25 results carries score 70 (sum 1750), while `mockMetrics.overallScore` is
the independently drawn value 85, and `25 * 85 ≠ 1750`: the overall score is
not the mean of the run's composite scores. -/
theorem overallScore_independent_of_results :
    ValidStream zeroStream ∧
    ((runOptimization 0 zeroStream).1.map (fun r => r.score)).sum = 1750 ∧
    (runOptimization 0 zeroStream).1.length = 25 ∧
    (runOptimization 0 zeroStream).2.overallScore = 85 ∧
    25 * 85 ≠ 1750 := by
  refine ⟨zeroStream_valid, ?_, ?_, ?_, by norm_num⟩
  · rw [show (runOptimization 0 zeroStream).1
        = (List.range 25).map (mkResult 0 zeroStream) from rfl, List.map_map]
    rw [List.map_congr_left (g := fun _ => 70)
      (fun i _ => by simp [Function.comp, mkResult_zeroStream])]
    simp [List.sum_replicate]
  · rfl
  · rw [show (runOptimization 0 zeroStream).2 = mockMetrics zeroStream from rfl,
      mockMetrics_zeroStream]

/-- C4: the claim fails on the code.  On the all-zero stream the five
sub-scores of `mockMetrics` are 80, 85, 90, 75, 80, whose equal-weight mean is
82, yet `overallScore` is the independently drawn 85: the composite is not the
configured weighted sum of the sub-scores (no per-trainset sub-scores exist in
the code at all). -/
theorem overallScore_not_weighted_sum :
    ValidStream zeroStream ∧
    (runOptimization 0 zeroStream).2 = ⟨80, 85, 90, 75, 80, 85⟩ ∧
    5 * 85 ≠ 80 + 85 + 90 + 75 + 80 :=
  ⟨zeroStream_valid, mockMetrics_zeroStream, by norm_num⟩

/-- C5: the claim fails on the code.  On the all-zero stream the supplied
trainset `KMRL-001` has every certificate expired, so its feasible set is
`[maintenance]`, yet the result `runOptimization` emits for `KMRL-001`
carries the action `induct` — an action outside the feasible set (the
function never reads the snapshot at all). -/
theorem assigned_action_not_feasible :
    ValidStream zeroStream ∧
    ((generateTrainsetData 0 zeroStream).head?.map
      (fun t => (t.number, feasible_actions t)))
      = some ("KMRL-001", [Action.maintenance]) ∧
    ((runOptimization 0 zeroStream).1.head?.map
      (fun r => (r.trainsetId, r.action))) = some ("KMRL-001", Action.induct) ∧
    Action.induct ∉ [Action.maintenance] := by
  refine ⟨zeroStream_valid, ?_, ?_, by simp⟩
  · rw [generateTrainsetData_head, generateTrainset_zeroStream]
    rfl
  · rw [runOptimization_results_head, mkResult_zeroStream]
    rfl

/-- C6: the claim fails on the code.  On the all-zero stream the first
trainset has `current = 10000`, `target = 45000` but `variance = -5000`,
while `current - target = -35000`: the variance field is drawn at random,
not computed as `current - target`. -/
theorem variance_not_current_minus_target :
    ValidStream zeroStream ∧
    ((generateTrainsetData 0 zeroStream).head?.map
      (fun t => (t.mileage.current, t.mileage.target, t.mileage.variance)))
      = some (10000, 45000, -5000) ∧
    (-5000 : Int) ≠ 10000 - 45000 := by
  refine ⟨zeroStream_valid, ?_, by norm_num⟩
  rw [generateTrainsetData_head, generateTrainset_zeroStream]
  rfl

theorem progressSignal_expand :
    progressSignal = [0] ++ ([0, 1, 2, 3, 4, 5, 6, 7, 8, 9, 10].map
      (fun i : Nat => (((i : ℚ) + 1) / optimizationLogs.length) * 100)) := by
  rw [progressSignal, show List.range optimizationLogs.length
    = [0, 1, 2, 3, 4, 5, 6, 7, 8, 9, 10] from rfl]
  rfl

/-- C7: confirmed.  The progress signal emitted during a run — `0` at start,
then `((i + 1) / logs.length) * 100` after each of the 11 stages — is
monotonically nondecreasing, every value lies in `[0, 100]`, and the final
value is `100`. -/
theorem progress_monotone_bounded :
    List.Chain' (fun a b => a ≤ b) progressSignal ∧
    (∀ x ∈ progressSignal, 0 ≤ x ∧ x ≤ 100) ∧
    progressSignal.getLast? = some 100 := by
  refine ⟨?_, ?_, ?_⟩
  · rw [progressSignal_expand]
    norm_num [optimizationLogs, List.chain'_cons]
  · rw [progressSignal_expand]
    norm_num [optimizationLogs]
  · rw [progressSignal_expand]
    norm_num [optimizationLogs, List.getLast?]

instance : IsTotal OptimizationResult (fun a b => b.score ≤ a.score) :=
  ⟨fun a b => le_total b.score a.score⟩

instance : IsTrans OptimizationResult (fun a b => b.score ≤ a.score) :=
  ⟨fun _ _ _ h1 h2 => le_trans h2 h1⟩

/-- C8: confirmed.  The display sort `results.sort((a, b) => b.score - a.score)`
produces a list sorted in descending order of score, and it is a permutation
of the result list: every result keeps its `action` (and every other field)
unchanged — the sort affects display rank only. -/
theorem sortResults_sorted_and_perm (rs : List OptimizationResult) :
    List.Sorted (fun a b => b.score ≤ a.score) (sortResults rs) ∧
    List.Perm (sortResults rs) rs :=
  ⟨List.sorted_insertionSort _ rs, List.perm_insertionSort _ rs⟩

/-- C9: confirmed.  For every valid `Math.random()` stream, every trainset of
`generateTrainsetData` satisfies `0 ≤ open ≤ total`: the open count is drawn
from `[0, 4]` and the total from `[5, 14]`. -/
theorem jobCards_open_le_total (now : Nat) (rng : Nat → ℚ) (h : ValidStream rng)
    (t : TrainsetStatus) (ht : t ∈ generateTrainsetData now rng) :
    0 ≤ t.jobCards.openCount ∧ t.jobCards.openCount ≤ t.jobCards.total := by
  refine ⟨Nat.zero_le _, ?_⟩
  obtain ⟨i, hi, rfl⟩ := List.mem_map.1 ht
  have h5 : randFloor (rng (17 * i + 4)) 5 < 5 :=
    randFloor_lt _ _ (by norm_num) (h _).2
  show randFloor (rng (17 * i + 4)) 5 ≤ randFloor (rng (17 * i + 5)) 10 + 5
  omega

theorem jobCards_open_le_total_witness :
    0 ≤ (generateTrainset 0 zeroStream 0).jobCards.openCount ∧
    (generateTrainset 0 zeroStream 0).jobCards.openCount ≤
      (generateTrainset 0 zeroStream 0).jobCards.total :=
  jobCards_open_le_total 0 zeroStream zeroStream_valid _
    (List.mem_map.2 ⟨0, by simp, rfl⟩)

/-- C10: confirmed.  For every valid `Math.random()` stream, every result score
of `runOptimization` lies in `[70, 99]` (`Math.floor(random * 30) + 70`), and
so does every trainset `confidenceScore` of `generateTrainsetData`. -/
theorem result_scores_bounded (now : Nat) (rng : Nat → ℚ) (h : ValidStream rng)
    (r : OptimizationResult) (hr : r ∈ (runOptimization now rng).1)
    (t : TrainsetStatus) (ht : t ∈ generateTrainsetData now rng) :
    (70 ≤ r.score ∧ r.score ≤ 99) ∧
    (70 ≤ t.confidenceScore ∧ t.confidenceScore ≤ 99) := by
  have hr2 : r ∈ (List.range 25).map (mkResult now rng) := hr
  obtain ⟨i, hi, rfl⟩ := List.mem_map.1 hr2
  obtain ⟨j, hj, rfl⟩ := List.mem_map.1 ht
  have hs : randFloor (rng (4 * i + 1)) 30 < 30 :=
    randFloor_lt _ _ (by norm_num) (h _).2
  have hc : randFloor (rng (17 * j + 16)) 30 < 30 :=
    randFloor_lt _ _ (by norm_num) (h _).2
  constructor
  · show 70 ≤ randFloor (rng (4 * i + 1)) 30 + 70 ∧
      randFloor (rng (4 * i + 1)) 30 + 70 ≤ 99
    omega
  · show 70 ≤ randFloor (rng (17 * j + 16)) 30 + 70 ∧
      randFloor (rng (17 * j + 16)) 30 + 70 ≤ 99
    omega

theorem result_scores_bounded_witness :
    ((70 ≤ (mkResult 0 zeroStream 0).score ∧ (mkResult 0 zeroStream 0).score ≤ 99) ∧
    (70 ≤ (generateTrainset 0 zeroStream 0).confidenceScore ∧
      (generateTrainset 0 zeroStream 0).confidenceScore ≤ 99)) :=
  result_scores_bounded 0 zeroStream zeroStream_valid _
    (List.mem_map.2 ⟨0, by simp, rfl⟩) _ (List.mem_map.2 ⟨0, by simp, rfl⟩)

end Fleet
